import Mathlib

/-!
Shallow embedding of the conway-on-site notebook state manager
(`src/lib/contexts/notebook-context.tsx`) and the file access endpoint
(`src/app/api/files/[...path]/route.ts`).

Modelling conventions:
* TypeScript objects become Lean structures; the variant-specific fields of
  the three block variants (`editMode`, `output`, `isExecuting`) are `Option`
  fields on one flat `Block` structure, `none` meaning the key is absent on
  the runtime object.
* An update payload (`Partial<MarkdownBlock | PythonBlock | CsvBlock>`) is a
  record of `Option` fields, `some v` meaning the key is present; the JS
  spread `{ ...block, ...updates }` is `mergeBlock`, where a present payload
  key wins over the block's field — including the `type` key, since a spread
  performs no type-level filtering at runtime.
* Effects are passed explicitly: `generateUUID()` and the timestamp become
  the `id` / `now` arguments, the React state is the `Option Notebook` value
  threaded in and out, and the outcome of the fire-and-forget `fetch` (and of
  the storage collaborator in the route handlers) is an `Except` argument.
* `Array.prototype.sort` with comparator `a.position - b.position` is a
  stable ascending sort by position; it is modelled by Mathlib's stable
  `List.insertionSort` on the relation `blockLE`.
-/

namespace ConwayOnSite

/-- The three block variants: `'markdown' | 'python' | 'csv'`. -/
inductive BlockType where
  | markdown
  | python
  | csv
deriving DecidableEq, Repr

/-- File extension chosen in `createBlock`:
`type === 'markdown' ? 'md' : type === 'python' ? 'py' : 'csv'`. -/
def BlockType.ext : BlockType → String
  | .markdown => "md"
  | .python => "py"
  | .csv => "csv"

/-- A runtime block object. Common fields are always present; the
variant-specific fields are present (`some`) only on the matching variant
when the block is built by `createBlock`. -/
structure Block where
  id : String
  type : BlockType
  filePath : String
  position : Int
  created : String
  updated : String
  editMode : Option Bool := none
  output : Option String := none
  isExecuting : Option Bool := none
deriving DecidableEq, Repr

/-- A `{ path, type }` descriptor in the notebook's `files` list. -/
structure FileDescriptor where
  path : String
  type : BlockType
deriving DecidableEq, Repr

/-- The notebook document: identifier, block list, file descriptor list. -/
structure Notebook where
  id : String
  blocks : List Block
  files : List FileDescriptor
deriving DecidableEq, Repr

/-- An update payload `Partial<MarkdownBlock | PythonBlock | CsvBlock>`:
every key optional, `some v` meaning the key is present with value `v`. -/
structure BlockUpdates where
  id : Option String := none
  type : Option BlockType := none
  filePath : Option String := none
  position : Option Int := none
  created : Option String := none
  updated : Option String := none
  editMode : Option Bool := none
  output : Option String := none
  isExecuting : Option Bool := none
deriving DecidableEq, Repr

/-- The JS spread `{ ...block, ...updates }`: a key present in `updates`
overwrites the block's field, any other field is kept. The three source
branches on `block.type` all perform this same spread (the `as` casts are
compile-time only), so a single merge models all of them. -/
def mergeBlock (block : Block) (updates : BlockUpdates) : Block :=
  { id := updates.id.getD block.id
    type := updates.type.getD block.type
    filePath := updates.filePath.getD block.filePath
    position := updates.position.getD block.position
    created := updates.created.getD block.created
    updated := updates.updated.getD block.updated
    editMode := updates.editMode.orElse fun _ => block.editMode
    output := updates.output.orElse fun _ => block.output
    isExecuting := updates.isExecuting.orElse fun _ => block.isExecuting }

/-- `updateBlock(id, updates)` from the notebook context: no-op when no
notebook is loaded; otherwise maps over the blocks, merging the payload into
the block whose `id` matches and leaving every other block unchanged. -/
def updateBlock (notebook : Option Notebook) (id : String)
    (updates : BlockUpdates) : Option Notebook :=
  match notebook with
  | none => none
  | some nb =>
    let updatedBlocks := nb.blocks.map fun block =>
      if block.id ≠ id then block else mergeBlock block updates
    some { nb with blocks := updatedBlocks }

/-- `position !== undefined ? position : notebook.blocks.length`. -/
def targetPosition (nb : Notebook) (position : Option Int) : Int :=
  match position with
  | some p => p
  | none => (nb.blocks.length : Int)

/-- The backing file path built in `createBlock`:
`` `${notebook.id}/${id}.${ext}` ``. -/
def blockFilePath (nb : Notebook) (id : String) (type : BlockType) : String :=
  nb.id ++ "/" ++ id ++ "." ++ type.ext

/-- The new block constructed for the requested variant, with
variant-appropriate defaults (markdown: `editMode: true`; python:
`output: ''`, `isExecuting: false`; csv: no extra fields). -/
def newBlockFor (type : BlockType) (id filePath : String) (newPosition : Int)
    (now : String) : Block :=
  match type with
  | .markdown =>
    { id := id, type := .markdown, filePath := filePath,
      position := newPosition, created := now, updated := now,
      editMode := some true }
  | .python =>
    { id := id, type := .python, filePath := filePath,
      position := newPosition, created := now, updated := now,
      output := some "", isExecuting := some false }
  | .csv =>
    { id := id, type := .csv, filePath := filePath,
      position := newPosition, created := now, updated := now }

/-- The shift applied by the renumbering loop to one block:
`if (updatedBlocks[i].position >= newPosition) updatedBlocks[i].position += 1`. -/
def shiftFrom (newPosition : Int) (b : Block) : Block :=
  if newPosition ≤ b.position then { b with position := b.position + 1 } else b

/-- The block list after the renumbering loop, which runs only when an
explicit position argument was supplied. -/
def shiftedBlocks (blocks : List Block) (position : Option Int)
    (newPosition : Int) : List Block :=
  match position with
  | some _ => blocks.map (shiftFrom newPosition)
  | none => blocks

/-- Ascending order on blocks used by `sort((a, b) => a.position - b.position)`. -/
def blockLE (a b : Block) : Prop := a.position ≤ b.position

instance : DecidableRel blockLE := fun a b =>
  inferInstanceAs (Decidable (a.position ≤ b.position))

instance : IsTotal Block blockLE := ⟨fun a b => Int.le_total a.position b.position⟩

instance : IsTrans Block blockLE := ⟨fun _ _ _ hab hbc => le_trans hab hbc⟩

/-- `createBlock(type, position?)` from the notebook context. Throwing is
modelled by `Except.error`; `fetchResult` is the outcome of the
fire-and-forget `POST /api/files` call, whose rejection is caught and only
logged. Returns the updated state together with the returned identifier. -/
def createBlock (notebook : Option Notebook) (type : BlockType)
    (position : Option Int) (id now : String)
    (fetchResult : Except String Unit) : Except String (Notebook × String) :=
  match notebook with
  | none => Except.error "No notebook loaded"
  | some nb =>
    let newPosition := targetPosition nb position
    let filePath := blockFilePath nb id type
    let newBlock := newBlockFor type id filePath newPosition now
    let updatedBlocks :=
      List.insertionSort blockLE
        (shiftedBlocks nb.blocks position newPosition ++ [newBlock])
    let nb' : Notebook :=
      { nb with blocks := updatedBlocks,
                files := nb.files ++ [⟨filePath, type⟩] }
    match fetchResult with
    | Except.ok _ => Except.ok (nb', id)
    | Except.error _ => Except.ok (nb', id)

/-- Body of a JSON response produced by the file route handlers. -/
inductive ResponseBody where
  | content (s : String)
  | successTrue
  | error (s : String)
deriving DecidableEq, Repr

/-- A JSON response: `NextResponse.json(body)` has status 200 unless an
explicit `{ status }` is given. -/
structure ApiResponse where
  status : Nat
  body : ResponseBody
deriving DecidableEq, Repr

/-- `GET /api/files/[...path]`: joins the path segments with `/`, asks the
storage collaborator for the content, and wraps any failure into a uniform
500 response. -/
def filesGET (getFile : String → Except String String) (path : List String) :
    ApiResponse :=
  let filePath := String.intercalate "/" path
  match getFile filePath with
  | Except.ok content => { status := 200, body := ResponseBody.content content }
  | Except.error _ =>
    { status := 500, body := ResponseBody.error "Failed to fetch file" }

/-- `DELETE /api/files/[...path]`: joins the path segments with `/`, asks the
storage collaborator to delete, and wraps any failure into a uniform 500
response. -/
def filesDELETE (deleteFile : String → Except String Unit)
    (path : List String) : ApiResponse :=
  let filePath := String.intercalate "/" path
  match deleteFile filePath with
  | Except.ok _ => { status := 200, body := ResponseBody.successTrue }
  | Except.error _ =>
    { status := 500, body := ResponseBody.error "Failed to delete file" }

/-! ### Basic facts about the embedded operations -/

/-- Spec-level file extensions, dot included (`markdown`→`.md`, `python`→`.py`,
`csv`→`.csv`). -/
def dotExt : BlockType → String
  | .markdown => ".md"
  | .python => ".py"
  | .csv => ".csv"

theorem blockFilePath_eq (nb : Notebook) (id : String) (t : BlockType) :
    blockFilePath nb id t = nb.id ++ "/" ++ id ++ dotExt t := by
  cases t <;> (rw [blockFilePath, String.append_assoc]; rfl)

theorem newBlockFor_id (t : BlockType) (i fp : String) (p : Int) (n : String) :
    (newBlockFor t i fp p n).id = i := by
  cases t <;> rfl

theorem newBlockFor_position (t : BlockType) (i fp : String) (p : Int) (n : String) :
    (newBlockFor t i fp p n).position = p := by
  cases t <;> rfl

theorem newBlockFor_filePath (t : BlockType) (i fp : String) (p : Int) (n : String) :
    (newBlockFor t i fp p n).filePath = fp := by
  cases t <;> rfl

/-- On a loaded notebook, `createBlock` always takes the success path, and the
committed state is the sorted shifted block list plus the appended file
descriptor, whatever the outcome of the background fetch. -/
theorem createBlock_some_eq (nb : Notebook) (type : BlockType)
    (position : Option Int) (id now : String) (fr : Except String Unit) :
    createBlock (some nb) type position id now fr =
      Except.ok
        ({ nb with
            blocks := List.insertionSort blockLE
              (shiftedBlocks nb.blocks position (targetPosition nb position) ++
                [newBlockFor type id (blockFilePath nb id type)
                  (targetPosition nb position) now]),
            files := nb.files ++ [⟨blockFilePath nb id type, type⟩] }, id) := by
  cases fr <;> rfl

theorem newBlock_mem_result (l : List Block) (b : Block) :
    b ∈ List.insertionSort blockLE (l ++ [b]) :=
  (List.mem_insertionSort blockLE).mpr (by simp)

theorem shiftFrom_id (p : Int) (b : Block) : (shiftFrom p b).id = b.id := by
  rw [shiftFrom]; split <;> rfl

theorem shiftFrom_position (p : Int) (b : Block) :
    (shiftFrom p b).position =
      if p ≤ b.position then b.position + 1 else b.position := by
  rw [shiftFrom]; split <;> rfl

theorem shiftFrom_position_ne (p : Int) {a b : Block}
    (h : a.position ≠ b.position) :
    (shiftFrom p a).position ≠ (shiftFrom p b).position := by
  rw [shiftFrom_position, shiftFrom_position]
  split <;> split <;> omega

theorem shiftFrom_position_lt (p : Int) {a b : Block}
    (h : a.position < b.position) :
    (shiftFrom p a).position < (shiftFrom p b).position := by
  rw [shiftFrom_position, shiftFrom_position]
  split <;> split <;> omega

theorem shiftFrom_position_ne_target (p : Int) (b : Block) :
    (shiftFrom p b).position ≠ p := by
  rw [shiftFrom_position]; split <;> omega

/-- Distinct positions survive the renumbering loop plus the push of a block
whose position is the explicit target. -/
theorem pairwise_ne_shifted_snoc (blocks : List Block) (p : Int) (newB : Block)
    (hd : blocks.Pairwise fun a b => a.position ≠ b.position)
    (hb : newB.position = p) :
    ((blocks.map (shiftFrom p) ++ [newB]).Pairwise
      fun a b => a.position ≠ b.position) := by
  rw [List.pairwise_append]
  refine ⟨List.pairwise_map.mpr (hd.imp fun h => shiftFrom_position_ne p h),
    by simp, ?_⟩
  intro a ha b hbm
  rw [List.mem_singleton] at hbm
  subst hbm
  obtain ⟨a₀, _, rfl⟩ := List.mem_map.mp ha
  rw [hb]
  exact shiftFrom_position_ne_target p a₀


/-- Distinct positions survive a plain push when the pushed position is fresh. -/
theorem pairwise_ne_snoc (blocks : List Block) (newB : Block)
    (hd : blocks.Pairwise fun a b => a.position ≠ b.position)
    (hfresh : ∀ b ∈ blocks, b.position ≠ newB.position) :
    ((blocks ++ [newB]).Pairwise fun a b => a.position ≠ b.position) := by
  rw [List.pairwise_append]
  refine ⟨hd, by simp, ?_⟩
  intro a ha b hbm
  rw [List.mem_singleton] at hbm
  subst hbm
  exact hfresh a ha

/-- Position distinctness is preserved by the final sort. -/
theorem pairwise_ne_insertionSort (l : List Block)
    (h : l.Pairwise fun a b => a.position ≠ b.position) :
    ((List.insertionSort blockLE l).Pairwise
      fun a b => a.position ≠ b.position) :=
  ((List.perm_insertionSort blockLE l).pairwise_iff fun hxy => hxy.symm).mpr h

theorem shiftFrom_of_le {p : Int} {b : Block} (h : p ≤ b.position) :
    shiftFrom p b = { b with position := b.position + 1 } := by
  rw [shiftFrom]; exact if_pos h

theorem shiftFrom_of_lt {p : Int} {b : Block} (h : b.position < p) :
    shiftFrom p b = b := by
  rw [shiftFrom]; exact if_neg (by omega)

/-- A sorted block list with pairwise-distinct positions has strictly
increasing positions. -/
theorem strict_sorted_insertionSort (l : List Block)
    (h : l.Pairwise fun a b => a.position ≠ b.position) :
    (((List.insertionSort blockLE l).map Block.position).Pairwise (· < ·)) := by
  have hne := pairwise_ne_insertionSort l h
  have hle : (List.insertionSort blockLE l).Pairwise blockLE :=
    List.sorted_insertionSort blockLE l
  exact List.pairwise_map.mpr
    ((hle.and hne).imp fun h2 => lt_of_le_of_ne h2.1 h2.2)

/-- A sequence of `createBlock` calls, each with an explicit position; each
tuple carries the variant, the position, and the generated identifier and
timestamp of that call. The fire-and-forget fetch is taken to succeed, which
is irrelevant to the resulting state. -/
def applyCreates (nb : Notebook)
    (calls : List (BlockType × Int × String × String)) : Notebook :=
  match calls with
  | [] => nb
  | (type, p, id, now) :: rest =>
    match createBlock (some nb) type (some p) id now (Except.ok ()) with
    | Except.ok (nb', _) => applyCreates nb' rest
    | Except.error _ => nb

/-! ### Concrete fixtures used by counterexamples and witnesses -/

/-- A markdown block as `createBlock` would have produced it. -/
def mkBlock (i : String) (p : Int) : Block :=
  { id := i, type := .markdown, filePath := "nb1/" ++ i ++ ".md",
    position := p, created := "t0", updated := "t0", editMode := some true }

/-- A loaded notebook with densely numbered blocks at positions 0, 1, 2. -/
def wNotebook : Notebook :=
  { id := "nb1", blocks := [mkBlock "a" 0, mkBlock "b" 1, mkBlock "c" 2],
    files := [] }

/-- A loaded notebook with sparse (but pairwise-distinct) positions 0 and 2. -/
def sparseNotebook : Notebook :=
  { id := "nb1", blocks := [mkBlock "a" 0, mkBlock "b" 2], files := [] }

/-- The block list produced by `createBlock('csv')` (no explicit position) on
`sparseNotebook`: the new block lands at position `2 = blocks.length`, which
collides with the pre-existing block at position 2. -/
def sparseResultBlocks : List Block :=
  [mkBlock "a" 0, mkBlock "b" 2,
    { id := "c", type := BlockType.csv, filePath := "nb1/c.csv", position := 2,
      created := "t1", updated := "t1" }]

/-! ### Claims -/

/-- C1: the claim states that `updateBlock` never changes a block's `type`,
even for a payload carrying a `type` field. The runtime spread
`{ ...block, ...updates }` lets a caller-supplied `type` key overwrite the
block's tag (the `as` casts are compile-time only), contradicting the
source's own comment `// Always preserve the original type`: updating the
markdown block `mkBlock "a" 0` with payload `{ type: 'python' }` yields a
block whose `type` is `python`, not the original `markdown`. -/
theorem updateBlock_type_overwritten :
    (mkBlock "a" 0).type = BlockType.markdown ∧
    updateBlock (some wNotebook) "a" { type := some BlockType.python } =
      some { wNotebook with
              blocks := [{ mkBlock "a" 0 with type := BlockType.python },
                mkBlock "b" 1, mkBlock "c" 2] } ∧
    BlockType.python ≠ BlockType.markdown :=
  ⟨rfl, rfl, by decide⟩

/-- C5: for both file-endpoint operations and every path, a successful
storage call yields body `{ content }` (GET) or `{ success: true }` (DELETE),
and any storage failure is not propagated but collapsed into a status-500
response with body `{ error: 'Failed to fetch file' }` respectively
`{ error: 'Failed to delete file' }`. -/
theorem files_route_uniform_responses (g : String → Except String String)
    (d : String → Except String Unit) (path : List String) :
    (∀ c, g (String.intercalate "/" path) = Except.ok c →
      (filesGET g path).body = ResponseBody.content c) ∧
    (∀ e, g (String.intercalate "/" path) = Except.error e →
      filesGET g path =
        { status := 500, body := ResponseBody.error "Failed to fetch file" }) ∧
    (d (String.intercalate "/" path) = Except.ok () →
      (filesDELETE d path).body = ResponseBody.successTrue) ∧
    (∀ e, d (String.intercalate "/" path) = Except.error e →
      filesDELETE d path =
        { status := 500,
          body := ResponseBody.error "Failed to delete file" }) := by
  refine ⟨fun c hc => ?_, fun e he => ?_, fun h => ?_, fun e he => ?_⟩
  · simp only [filesGET]; rw [hc]
  · simp only [filesGET]; rw [he]
  · simp only [filesDELETE]; rw [h]
  · simp only [filesDELETE]; rw [he]

/-- Witness for C5: the spec's example, `GET /api/files/a/b.txt` with a
throwing storage collaborator, produces the uniform 500 response; a
successful DELETE produces `{ success: true }`. -/
theorem files_route_uniform_responses_witness :
    filesGET (fun _ => Except.error "storage down") ["a", "b.txt"] =
      { status := 500, body := ResponseBody.error "Failed to fetch file" } ∧
    (filesDELETE (fun _ => Except.ok ()) ["a", "b.txt"]).body =
      ResponseBody.successTrue :=
  ⟨(files_route_uniform_responses (fun _ => Except.error "storage down")
      (fun _ => Except.ok ()) ["a", "b.txt"]).2.1 "storage down" rfl,
    (files_route_uniform_responses (fun _ => Except.error "storage down")
      (fun _ => Except.ok ()) ["a", "b.txt"]).2.2.1 rfl⟩

/-- C6: `createBlock` fails with the message `'No notebook loaded'` exactly
when no notebook is loaded; on a loaded notebook it never throws and returns
the freshly generated identifier. -/
theorem createBlock_requires_loaded_notebook (type : BlockType)
    (position : Option Int) (id now : String) (fr : Except String Unit) :
    createBlock none type position id now fr =
      Except.error "No notebook loaded" ∧
    ∀ nb : Notebook, ∃ nb',
      createBlock (some nb) type position id now fr = Except.ok (nb', id) :=
  ⟨rfl, fun nb => ⟨_, createBlock_some_eq nb type position id now fr⟩⟩

/-- C7: on a loaded notebook, `updateBlock` with an identifier matching no
block leaves the whole notebook value (blocks, their fields, and the file
list) unchanged, for every payload. -/
theorem updateBlock_unknown_id_noop (nb : Notebook) (id : String)
    (u : BlockUpdates) (h : ∀ b ∈ nb.blocks, b.id ≠ id) :
    updateBlock (some nb) id u = some nb := by
  have hm : (nb.blocks.map fun block =>
      if block.id ≠ id then block else mergeBlock block u) = nb.blocks := by
    rw [List.map_congr_left fun b hb => if_pos (h b hb)]
    simp
  simp only [updateBlock, hm]

/-- Witness for C7: updating an absent identifier on a concrete notebook
returns the notebook unchanged. -/
theorem updateBlock_unknown_id_noop_witness :
    updateBlock (some wNotebook) "zz" { position := some 9 } =
      some wNotebook :=
  updateBlock_unknown_id_noop wNotebook "zz" { position := some 9 } (by decide)

/-- C9: on a loaded notebook, `createBlock` commits the state update (block
inserted, descriptor appended) and returns the new identifier whether the
background file-creation request succeeds or fails; the failure never
surfaces as an error and nothing is rolled back. -/
theorem createBlock_fetch_outcome_invisible (nb : Notebook) (type : BlockType)
    (position : Option Int) (id now : String) (fr : Except String Unit) :
    createBlock (some nb) type position id now fr =
      createBlock (some nb) type position id now (Except.ok ()) ∧
    ∃ nb', createBlock (some nb) type position id now fr =
        Except.ok (nb', id) ∧
      (∃ b ∈ nb'.blocks, b.id = id) ∧
      nb'.files = nb.files ++ [⟨blockFilePath nb id type, type⟩] :=
  ⟨by cases fr <;> rfl,
    ⟨_, createBlock_some_eq nb type position id now fr,
      ⟨newBlockFor type id (blockFilePath nb id type)
          (targetPosition nb position) now,
        newBlock_mem_result _ _, newBlockFor_id _ _ _ _ _⟩, rfl⟩⟩

/-- C10: when no notebook is loaded, `updateBlock` returns without throwing
and leaves the (absent) state unchanged, for every identifier and payload. -/
theorem updateBlock_no_notebook_noop (id : String) (u : BlockUpdates) :
    updateBlock none id u = none :=
  rfl

/-- C8: on a loaded notebook, `createBlock` gives the new block the file path
`notebook.id + '/' + id + ext` (`ext` being `.md`, `.py`, or `.csv` by
variant) and appends exactly the descriptor `{ path, type }` to the file
list, leaving the pre-existing descriptors unchanged. -/
theorem createBlock_file_descriptor (nb : Notebook) (type : BlockType)
    (position : Option Int) (id now : String) (fr : Except String Unit) :
    ∃ nb', createBlock (some nb) type position id now fr =
        Except.ok (nb', id) ∧
      nb'.files = nb.files ++ [⟨nb.id ++ "/" ++ id ++ dotExt type, type⟩] ∧
      ∃ b ∈ nb'.blocks, b.id = id ∧
        b.filePath = nb.id ++ "/" ++ id ++ dotExt type :=
  ⟨_, createBlock_some_eq nb type position id now fr,
    by rw [blockFilePath_eq],
    ⟨newBlockFor type id (blockFilePath nb id type)
        (targetPosition nb position) now,
      newBlock_mem_result _ _, newBlockFor_id _ _ _ _ _,
      by rw [newBlockFor_filePath, blockFilePath_eq]⟩⟩

/-- The notebook produced by `createBlock('csv')` on `sparseNotebook`. -/
def sparseResult : Notebook :=
  { id := "nb1", blocks := sparseResultBlocks,
    files := [{ path := "nb1/c.csv", type := BlockType.csv }] }

/-- C2 counterexample: on `sparseNotebook`, whose two blocks have the
pairwise-distinct positions 0 and 2, `createBlock` without an explicit
position appends a block at position `blocks.length = 2`, so the resulting
blocks no longer have pairwise-distinct positions — refuting the claim for
calls that omit the position argument. -/
theorem createBlock_default_position_collision :
    (sparseNotebook.blocks.Pairwise fun a b => a.position ≠ b.position) ∧
    createBlock (some sparseNotebook) BlockType.csv none "c" "t1"
        (Except.ok ()) = Except.ok (sparseResult, "c") ∧
    ¬ (sparseResult.blocks.Pairwise fun a b => a.position ≠ b.position) :=
  ⟨by decide, rfl, by decide⟩

/-- C2 (amended): for every loaded notebook whose blocks have
pairwise-distinct positions, after a `createBlock` call that either supplies
an explicit position or — when the position is omitted — finds no
pre-existing position equal to the block count, the resulting blocks again
have pairwise-distinct positions and the relative position order of the
pre-existing blocks is preserved. (The proviso for the omitted case excludes
exactly the collision exhibited by the counterexample: the appended block
lands at position `blocks.length`.) -/
theorem createBlock_preserves_distinct_positions (nb : Notebook)
    (type : BlockType) (position : Option Int) (id now : String)
    (fr : Except String Unit)
    (hdist : nb.blocks.Pairwise fun a b => a.position ≠ b.position)
    (hbound : position = none →
      ∀ b ∈ nb.blocks, b.position ≠ (nb.blocks.length : Int)) :
    ∃ nb', createBlock (some nb) type position id now fr =
        Except.ok (nb', id) ∧
      (nb'.blocks.Pairwise fun a b => a.position ≠ b.position) ∧
      ∀ a ∈ nb.blocks, ∀ b ∈ nb.blocks, a.position < b.position →
        ∃ a' ∈ nb'.blocks, ∃ b' ∈ nb'.blocks,
          a'.id = a.id ∧ b'.id = b.id ∧ a'.position < b'.position := by
  refine ⟨_, createBlock_some_eq nb type position id now fr, ?_, ?_⟩
  · cases position with
    | some p =>
      exact pairwise_ne_insertionSort _
        (pairwise_ne_shifted_snoc nb.blocks p _ hdist
          (newBlockFor_position _ _ _ _ _))
    | none =>
      apply pairwise_ne_insertionSort
      apply pairwise_ne_snoc _ _ hdist
      intro b hb
      rw [newBlockFor_position]
      exact hbound rfl b hb
  · intro a ha b hb hab
    cases position with
    | some p =>
      refine ⟨shiftFrom p a, ?_, shiftFrom p b, ?_,
        shiftFrom_id p a, shiftFrom_id p b, shiftFrom_position_lt p hab⟩
      · exact (List.mem_insertionSort blockLE).mpr
          (List.mem_append_left _ (List.mem_map_of_mem _ ha))
      · exact (List.mem_insertionSort blockLE).mpr
          (List.mem_append_left _ (List.mem_map_of_mem _ hb))
    | none =>
      refine ⟨a, ?_, b, ?_, rfl, rfl, hab⟩
      · exact (List.mem_insertionSort blockLE).mpr (List.mem_append_left _ ha)
      · exact (List.mem_insertionSort blockLE).mpr (List.mem_append_left _ hb)

/-- A loaded notebook with sparse positions 0 and 3: the omitted-position
call is collision-free here, since `blocks.length = 2` matches no
pre-existing position. -/
def sparseSafeNotebook : Notebook :=
  { id := "nb1", blocks := [mkBlock "a" 0, mkBlock "b" 3], files := [] }

/-- Witness for the amended C2: `createBlock('csv')` with the position
omitted on the sparse notebook at positions 0 and 3 keeps positions
distinct and order preserved. -/
theorem createBlock_preserves_distinct_positions_witness :
    ∃ nb', createBlock (some sparseSafeNotebook) BlockType.csv none "d" "t1"
        (Except.ok ()) = Except.ok (nb', "d") ∧
      (nb'.blocks.Pairwise fun a b => a.position ≠ b.position) ∧
      ∀ a ∈ sparseSafeNotebook.blocks, ∀ b ∈ sparseSafeNotebook.blocks,
        a.position < b.position →
        ∃ a' ∈ nb'.blocks, ∃ b' ∈ nb'.blocks,
          a'.id = a.id ∧ b'.id = b.id ∧ a'.position < b'.position :=
  createBlock_preserves_distinct_positions sparseSafeNotebook BlockType.csv
    none "d" "t1" (Except.ok ()) (by decide) (fun _ => by decide)

/-- C3: `createBlock(type, p)` with an explicit position `p` shifts every
pre-existing block at position ≥ `p` up by exactly one (all other fields
unchanged), keeps every pre-existing block at position < `p` unchanged, and
inserts the new block with position `p`. -/
theorem createBlock_explicit_position_shifts (nb : Notebook)
    (type : BlockType) (p : Int) (id now : String)
    (fr : Except String Unit) :
    ∃ nb', createBlock (some nb) type (some p) id now fr =
        Except.ok (nb', id) ∧
      (∀ b ∈ nb.blocks, p ≤ b.position →
        { b with position := b.position + 1 } ∈ nb'.blocks) ∧
      (∀ b ∈ nb.blocks, b.position < p → b ∈ nb'.blocks) ∧
      ∃ b' ∈ nb'.blocks, b'.id = id ∧ b'.position = p := by
  refine ⟨_, createBlock_some_eq nb type (some p) id now fr, ?_, ?_, ?_⟩
  · intro b hb hple
    have hmem : shiftFrom p b ∈ nb.blocks.map (shiftFrom p) :=
      List.mem_map_of_mem _ hb
    rw [shiftFrom_of_le hple] at hmem
    exact (List.mem_insertionSort blockLE).mpr (List.mem_append_left _ hmem)
  · intro b hb hlt
    have hmem : shiftFrom p b ∈ nb.blocks.map (shiftFrom p) :=
      List.mem_map_of_mem _ hb
    rw [shiftFrom_of_lt hlt] at hmem
    exact (List.mem_insertionSort blockLE).mpr (List.mem_append_left _ hmem)
  · exact ⟨newBlockFor type id (blockFilePath nb id type)
        (targetPosition nb (some p)) now,
      newBlock_mem_result _ _, newBlockFor_id _ _ _ _ _,
      newBlockFor_position _ _ _ _ _⟩

/-- Witness for C3: the spec's example — inserting at position 1 into the
notebook at positions 0, 1, 2 bumps the old position-1 block to 2, keeps the
position-0 block, and places the new block at position 1. -/
theorem createBlock_explicit_position_shifts_witness :
    ∃ nb', createBlock (some wNotebook) BlockType.markdown (some 1) "d" "t1"
        (Except.ok ()) = Except.ok (nb', "d") ∧
      { mkBlock "b" 1 with
          position := (mkBlock "b" 1).position + 1 } ∈ nb'.blocks ∧
      mkBlock "a" 0 ∈ nb'.blocks ∧
      ∃ b' ∈ nb'.blocks, b'.id = "d" ∧ b'.position = 1 := by
  obtain ⟨nb', heq, hge, hlt, hnew⟩ :=
    createBlock_explicit_position_shifts wNotebook BlockType.markdown 1 "d"
      "t1" (Except.ok ())
  exact ⟨nb', heq, hge (mkBlock "b" 1) (by decide) (by decide),
    hlt (mkBlock "a" 0) (by decide) (by decide), hnew⟩

/-- C4: starting from an empty or strictly position-ordered notebook, any
sequence of `createBlock` calls with explicit positions leaves the block
list with pairwise-unique, strictly increasing positions (the list itself is
kept sorted by position). -/
theorem applyCreates_positions_strictly_increasing (nb : Notebook)
    (calls : List (BlockType × Int × String × String))
    (h : (nb.blocks.map Block.position).Pairwise (· < ·)) :
    (((applyCreates nb calls).blocks.map Block.position).Pairwise
      (· < ·)) := by
  induction calls generalizing nb with
  | nil => exact h
  | cons c rest ih =>
    obtain ⟨type, p, id, now⟩ := c
    rw [applyCreates, createBlock_some_eq]
    apply ih
    have hdist : nb.blocks.Pairwise fun a b => a.position ≠ b.position :=
      (List.pairwise_map.mp h).imp fun hab => Int.ne_of_lt hab
    exact strict_sorted_insertionSort _
      (pairwise_ne_shifted_snoc nb.blocks p _ hdist
        (newBlockFor_position _ _ _ _ _))

/-- A freshly loaded empty notebook. -/
def emptyNotebook : Notebook := { id := "nb1", blocks := [], files := [] }

/-- The spec's example call sequence: build positions 0, 1, 2 and then
insert again at position 1. -/
def exampleCalls : List (BlockType × Int × String × String) :=
  [(BlockType.markdown, 0, "a", "t0"), (BlockType.markdown, 1, "b", "t0"),
    (BlockType.markdown, 2, "c", "t0"), (BlockType.markdown, 1, "d", "t0")]

/-- Witness for C4: the spec's example sequence, starting from an empty
notebook, ends with strictly increasing positions. -/
theorem applyCreates_positions_strictly_increasing_witness :
    (((applyCreates emptyNotebook exampleCalls).blocks.map
      Block.position).Pairwise (· < ·)) :=
  applyCreates_positions_strictly_increasing emptyNotebook exampleCalls
    (by decide)

end ConwayOnSite
